import Mathlib

/-!
Verification of the URL risk-scoring engine of the Phishing-URL-Detection
repository.  The definitions below are a shallow embedding of the Python
sources:

* `universal_url_analyzer.py` — the `UniversalURLAnalyzer` class
  (scheme table, suspicious-pattern scan, security-risk scan, overall
  risk score, and the mutable `analysis_result` state),
* `enhanced_main.py` — the aggregation in `analyze_url` /
  `analyze_single_url_internal` (verdict thresholds, ml-risk, `max`),
* `advanced_ml_model.py` — the guard in `AdvancedPhishingModel.predict`,
* `enhanced_feature_extractor.py` — `EnhancedFeatureExtraction` and its
  30 feature checks.

Python strings are Lean `String`s (worked on as `List Char`); Python ints
are `Nat`/`Int`; Python floats arising from probability arithmetic are
modelled as `ℚ`; a Python function that can raise is modelled with
`Option`/`Except`.  Page content, WHOIS, DNS and fetch results are
external collaborator data and enter as an explicit environment record.
-/

namespace URLDetector

/-! ## String utilities (Python `in`, `rfind`, `split`, `count`) -/

/-- Python `pat in s` (substring containment) on character lists. -/
def hasSubstr (pat : List Char) : List Char → Bool
  | [] => pat.isEmpty
  | c :: rest => pat.isPrefixOf (c :: rest) || hasSubstr pat rest

/-- Python `s.rfind(pat)`: index of the last occurrence, `-1` if absent. -/
def pyRfind (pat s : List Char) : Int :=
  match ((List.range (s.length + 1)).filter (fun i => pat.isPrefixOf (s.drop i))).getLast? with
  | some i => (i : Int)
  | none => -1

/-- Python `s.split(sep)` on character lists. -/
def splitOnChar (sep : Char) : List Char → List (List Char)
  | [] => [[]]
  | c :: rest =>
    match splitOnChar sep rest with
    | [] => [[]]
    | g :: gs => if c = sep then [] :: g :: gs else (c :: g) :: gs

/-- Numeric value of a digit string (the string is assumed checked). -/
def natOfDigits (s : List Char) : Nat :=
  s.foldl (fun n c => n * 10 + (c.toNat - '0'.toNat)) 0

/-- Python `s.count(ch)`. -/
def countChar (ch : Char) (s : List Char) : Nat :=
  (s.filter (fun c => c = ch)).length

/-- Python `str.lower()` restricted to ASCII (all inputs of interest are ASCII). -/
def lowerStr (s : String) : String :=
  ⟨s.data.map Char.toLower⟩

/-- Python `s.startswith(pre)` (case-sensitive). -/
def strStartsWith (s pre : String) : Bool :=
  pre.data.isPrefixOf s.data

/-! ## `urllib.parse.urlparse` — the fragment the analyzers use

`urlsplit` first removes tab/CR/LF characters and strips leading and
trailing C0-control-or-space characters; then it splits off a scheme
(`[A-Za-z][A-Za-z0-9+.-]*` before the first `:`), lowercasing it, and a
netloc (after `//`, up to the first `/`, `?` or `#`).  A netloc with
unbalanced square brackets raises `ValueError` (modelled as `none`).
Reading `.port` raises `ValueError` when the port text after the last
`:` is non-numeric or above 65535 (modelled separately below). -/

def isSchemeTailChar (c : Char) : Bool :=
  c.isAlpha || c.isDigit || c = '+' || c = '-' || c = '.'

def isC0OrSpace (c : Char) : Bool :=
  c.toNat ≤ 0x20

/-- The WHATWG sanitisation `urlsplit` applies before parsing. -/
def sanitizeUrl (s : List Char) : List Char :=
  (((s.dropWhile isC0OrSpace).reverse.dropWhile isC0OrSpace).reverse).filter
    (fun c => c ≠ '\t' && c ≠ '\r' && c ≠ '\n')

/-- Split off the scheme: `(some scheme, rest)` or `(none, s)`. -/
def splitScheme (s : List Char) : Option (List Char) × List Char :=
  match s.findIdx? (fun c => c = ':') with
  | none => (none, s)
  | some i =>
    let before := s.take i
    match before with
    | [] => (none, s)
    | c0 :: tail =>
      if c0.isAlpha && tail.all isSchemeTailChar then
        (some (before.map Char.toLower), s.drop (i + 1))
      else
        (none, s)

structure ParsedURL where
  scheme : String   -- lowercased, "" when absent
  netloc : String
  deriving DecidableEq, Repr

/-- `urlparse`, returning `none` when it raises (unbalanced brackets in
the netloc). -/
def urlparseE (url : String) : Option ParsedURL :=
  let s := sanitizeUrl url.data
  let (schemeOpt, rest) := splitScheme s
  let netloc : List Char :=
    match rest with
    | '/' :: '/' :: r => r.takeWhile (fun c => c ≠ '/' && c ≠ '?' && c ≠ '#')
    | _ => []
  if (netloc.contains '[' && !netloc.contains ']') ||
     (netloc.contains ']' && !netloc.contains '[') then
    none
  else
    some { scheme := ⟨(schemeOpt.getD [])⟩, netloc := ⟨netloc⟩ }

/-- The port text of a netloc, per `SplitResult._hostinfo`: after the last
`@`; in the bracketed (IPv6) form the text after the first `:` following
`]`, otherwise the text after the first `:`. -/
def portText (netloc : List Char) : List Char :=
  let hostinfo := (splitOnChar '@' netloc).getLastD []
  if hostinfo.contains '[' then
    let afterBr := (hostinfo.dropWhile (fun c => c ≠ ']')).drop 1
    (afterBr.dropWhile (fun c => c ≠ ':')).drop 1
  else
    (hostinfo.dropWhile (fun c => c ≠ ':')).drop 1

/-- Does reading `.port` raise `ValueError`?  (Non-digit port text, or a
value outside 0–65535.) -/
def portRaises (netloc : List Char) : Bool :=
  let p := portText netloc
  !p.isEmpty && (!p.all Char.isDigit || natOfDigits p > 65535)

/-- `parsed.port` as an optional value (callers must check `portRaises`
first, as the analyzers access `.port` without catching `ValueError`). -/
def portOf (netloc : List Char) : Option Nat :=
  let p := portText netloc
  if !p.isEmpty && p.all Char.isDigit && natOfDigits p ≤ 65535 then
    some (natOfDigits p)
  else
    none

/-! ## `UniversalURLAnalyzer.URL_SCHEMES` and the analyzer's scheme -/

structure SchemeInfo where
  risk_level : String
  category : String
  deriving DecidableEq, Repr

/-- `URL_SCHEMES['unknown']`. -/
def unknownSchemeInfo : SchemeInfo := { risk_level := "high", category := "unknown" }

/-- The class attribute `URL_SCHEMES` (a dict, keyed by scheme). -/
def URL_SCHEMES : List (String × SchemeInfo) :=
  [ ("http",       { risk_level := "medium", category := "web" }),
    ("https",      { risk_level := "low",    category := "web" }),
    ("ftp",        { risk_level := "high",   category := "file_transfer" }),
    ("ftps",       { risk_level := "medium", category := "file_transfer" }),
    ("sftp",       { risk_level := "low",    category := "file_transfer" }),
    ("file",       { risk_level := "high",   category := "local_file" }),
    ("data",       { risk_level := "medium", category := "data_url" }),
    ("mailto",     { risk_level := "medium", category := "email" }),
    ("ldap",       { risk_level := "high",   category := "directory" }),
    ("ldaps",      { risk_level := "medium", category := "directory" }),
    ("ssh",        { risk_level := "high",   category := "remote_access" }),
    ("telnet",     { risk_level := "high",   category := "remote_access" }),
    ("rdp",        { risk_level := "high",   category := "remote_access" }),
    ("vnc",        { risk_level := "high",   category := "remote_access" }),
    ("jdbc",       { risk_level := "high",   category := "database" }),
    ("mysql",      { risk_level := "high",   category := "database" }),
    ("postgresql", { risk_level := "high",   category := "database" }),
    ("irc",        { risk_level := "medium", category := "messaging" }),
    ("xmpp",       { risk_level := "medium", category := "messaging" }),
    ("magnet",     { risk_level := "high",   category := "p2p" }),
    ("torrent",    { risk_level := "high",   category := "p2p" }),
    ("bitcoin",    { risk_level := "medium", category := "cryptocurrency" }),
    ("ethereum",   { risk_level := "medium", category := "cryptocurrency" }),
    ("sms",        { risk_level := "medium", category := "mobile" }),
    ("tel",        { risk_level := "low",    category := "mobile" }),
    ("app",        { risk_level := "medium", category := "mobile" }),
    ("unknown",    unknownSchemeInfo) ]

/-- `self.URL_SCHEMES.get(scheme, self.URL_SCHEMES['unknown'])`. -/
def urlSchemesGet (scheme : String) : SchemeInfo :=
  (URL_SCHEMES.lookup scheme).getD unknownSchemeInfo

/-- `self.scheme` as set by `UniversalURLAnalyzer.__init__`: the parsed
scheme lowercased, `'unknown'` when empty or when `urlparse` raised. -/
def analyzerScheme (url : String) : String :=
  match urlparseE url with
  | none => "unknown"
  | some p => if p.scheme = "" then "unknown" else p.scheme

/-- The scheme classification the analyzer reports for a URL
(`category` and `base_risk_level` fields of `_analyze_by_scheme`). -/
def classifyScheme (url : String) : SchemeInfo :=
  urlSchemesGet (analyzerScheme url)

/-! ## A tiny regular-expression engine (Brzozowski derivatives)

`_analyze_patterns` runs `re.search(pattern, url, re.IGNORECASE)` for each
of the eight `SUSPICIOUS_PATTERNS`.  Each pattern uses only character
classes, literals, alternation and `+`/`{n,}` repetition, so a small total
matcher suffices.  Case-insensitivity is embedded by lowercasing the URL
and writing the classes over lowercase letters. -/

inductive RE where
  | none0
  | eps
  | cls (p : Char → Bool)
  | cat (a b : RE)
  | alt (a b : RE)
  | star (a : RE)

def RE.nullable : RE → Bool
  | .none0 => false
  | .eps => true
  | .cls _ => false
  | .cat a b => a.nullable && b.nullable
  | .alt a b => a.nullable || b.nullable
  | .star _ => true

def RE.deriv : RE → Char → RE
  | .none0, _ => .none0
  | .eps, _ => .none0
  | .cls p, c => if p c then .eps else .none0
  | .cat a b, c =>
    if a.nullable then .alt (.cat (a.deriv c) b) (b.deriv c) else .cat (a.deriv c) b
  | .alt a b, c => .alt (a.deriv c) (b.deriv c)
  | .star a, c => .cat (a.deriv c) (.star a)

/-- Does some (possibly empty) front segment of `s` match `r`? -/
def RE.matchesFront (r : RE) : List Char → Bool
  | [] => r.nullable
  | c :: cs => r.nullable || (r.deriv c).matchesFront cs

/-- `re.search`: does any segment of `s` match `r`? -/
def RE.search (r : RE) : List Char → Bool
  | [] => r.nullable
  | c :: cs => r.matchesFront (c :: cs) || r.search cs

def RE.chr (c : Char) : RE := .cls (fun x => x = c)

def RE.str (s : List Char) : RE :=
  s.foldr (fun c acc => .cat (.chr c) acc) .eps

def RE.plus (r : RE) : RE := .cat r (.star r)

/-- `r{n,}`: at least `n` copies. -/
def RE.atLeast : Nat → RE → RE
  | 0, r => .star r
  | n + 1, r => .cat r (RE.atLeast n r)

/-- `[0-9]` -/
def digitRE : RE := .cls Char.isDigit

/-- `[a-zA-Z0-9]` applied after lowercasing. -/
def alnumRE : RE := .cls (fun c => c.isDigit || ('a' ≤ c && c ≤ 'z'))

/-- The class attribute `SUSPICIOUS_PATTERNS` (in list order), written
over the lowercased URL. -/
def SUSPICIOUS_PATTERNS : List RE :=
  [ -- r'[0-9]+\.[0-9]+\.[0-9]+\.[0-9]+'  (IP addresses)
    .cat digitRE.plus (.cat (.chr '.') (.cat digitRE.plus (.cat (.chr '.')
      (.cat digitRE.plus (.cat (.chr '.') digitRE.plus))))),
    -- r'[a-zA-Z0-9]+\.tk|\.ml|\.ga|\.cf'  (suspicious TLDs)
    .alt (.cat alnumRE.plus (RE.str ".tk".data))
      (.alt (RE.str ".ml".data) (.alt (RE.str ".ga".data) (RE.str ".cf".data))),
    -- r'bit\.ly|tinyurl|short'  (URL shorteners)
    .alt (RE.str "bit.ly".data) (.alt (RE.str "tinyurl".data) (RE.str "short".data)),
    -- r'phish|scam|hack|malware'  (suspicious keywords)
    .alt (RE.str "phish".data)
      (.alt (RE.str "scam".data) (.alt (RE.str "hack".data) (RE.str "malware".data))),
    -- r'[0-9]{5,}'  (long numbers)
    RE.atLeast 5 digitRE,
    -- r'login|signin|verify|account|secure|update'  (phishing keywords)
    .alt (RE.str "login".data) (.alt (RE.str "signin".data)
      (.alt (RE.str "verify".data) (.alt (RE.str "account".data)
        (.alt (RE.str "secure".data) (RE.str "update".data))))),
    -- r'\-{2,}|\_{3,}'  (multiple dashes/underscores)
    .alt (RE.atLeast 2 (RE.chr '-')) (RE.atLeast 3 (RE.chr '_')),
    -- r'[a-zA-Z0-9]{20,}'  (very long strings)
    RE.atLeast 20 alnumRE ]

/-- `_analyze_patterns`: the indices (in scan order) of the patterns that
match the URL.  Python appends the pattern's source string; the index is
an equivalent injective tag. -/
def patternMatchIdxs (url : String) : List Nat :=
  (List.range SUSPICIOUS_PATTERNS.length).filter
    (fun i => (SUSPICIOUS_PATTERNS.getD i .none0).search (lowerStr url).data)

/-! ## `_analyze_security_risks` -/

/-- `ipaddress.ip_address` applied to text without a colon can only
succeed as a strict IPv4 literal: four dot-separated decimal octets,
0–255, no leading zeros.  (The argument `netloc.split(':')[0]` never
contains a colon, so the IPv6 form is unreachable.) -/
def isDecOctet (s : List Char) : Bool :=
  !s.isEmpty && s.all Char.isDigit && s.length ≤ 3 &&
    (s.length = 1 || s.headD '0' ≠ '0') && natOfDigits s ≤ 255

def isIPv4 (s : List Char) : Bool :=
  let parts := splitOnChar '.' s
  parts.length = 4 && parts.all isDecOctet

structure SecurityAnalysis where
  risks : List String
  risk_score : Nat
  risk_level : String
  deriving DecidableEq, Repr

/-- `_analyze_security_risks`.  Returns `none` when the uncaught
`.port` access at the non-standard-port check raises `ValueError`
(which propagates out of `analyze_url`).  When `urlparse` itself raised
in `__init__`, `self.parsed_url` is `None` and the netloc/port checks
are skipped. -/
def analyzeSecurityRisks (url : String) : Option SecurityAnalysis :=
  let scheme := analyzerScheme url
  let lengthPart : List String × Nat :=
    if url.length > 200 then (["very_long_url"], 20)
    else if url.length > 100 then (["long_url"], 10)
    else ([], 0)
  let schemePart : List String × Nat :=
    if scheme = "file" || scheme = "ftp" || scheme = "telnet" then
      (["high_risk_scheme"], 40)
    else ([], 0)
  match urlparseE url with
  | none =>
    let risks := lengthPart.1 ++ schemePart.1
    let score := lengthPart.2 + schemePart.2
    some { risks := risks, risk_score := min score 100,
           risk_level := if score > 60 then "high" else if score > 30 then "medium" else "low" }
  | some p =>
    if portRaises p.netloc.data then none
    else
      let ipPart : List String × Nat :=
        if p.netloc ≠ "" && isIPv4 (p.netloc.data.takeWhile (fun c => c ≠ ':')) then
          (["uses_ip_address"], 30)
        else ([], 0)
      let portPart : List String × Nat :=
        match portOf p.netloc.data with
        | some pt =>
          if pt ≠ 0 && !([80, 443, 21, 22, 25, 110, 143, 993, 995].contains pt) then
            (["non_standard_port"], 15)
          else ([], 0)
        | none => ([], 0)
      let risks := ipPart.1 ++ lengthPart.1 ++ schemePart.1 ++ portPart.1
      let score := ipPart.2 + lengthPart.2 + schemePart.2 + portPart.2
      some { risks := risks, risk_score := min score 100,
             risk_level := if score > 60 then "high" else if score > 30 then "medium" else "low" }

/-! ## `_calculate_risk_score` and the stateful `analyze_url` -/

/-- The local `scheme_risks` dict of `_calculate_risk_score`. -/
def schemeRisks : List (String × Nat) :=
  [("high", 40), ("medium", 20), ("low", 5)]

/-- The contents of `self.analysis_result` that `_calculate_risk_score`
reads: `none` models the empty dict set by `__init__`; `some (s, p)`
models a populated result with `security_analysis.risk_score = s` and
`pattern_analysis.pattern_count = p`. -/
abbrev AnalyzerState := Option (Nat × Nat)

/-- `_calculate_risk_score`, a function of the scheme and of the
*current* `self.analysis_result`. -/
def calculateRiskScore (scheme : String) (st : AnalyzerState) : Nat :=
  let info := urlSchemesGet scheme
  let base := (schemeRisks.lookup info.risk_level).getD 50
  let base := base + (match st with | none => 0 | some (s, p) => s + p * 10)
  min base 100

/-- The fields of the `analysis_result` dict that the claims refer to. -/
structure UniversalResult where
  overall_risk_score : Nat
  security_score : Nat
  pattern_idxs : List Nat
  category : String
  base_risk_level : String
  deriving DecidableEq, Repr

/-- One call of `analyze_url` on an analyzer whose `self.analysis_result`
holds `st`.  The dict literal is evaluated before the assignment, so
`_calculate_risk_score` sees `st`, not the new analyses; the new state
is recorded afterwards.  `none` models the `ValueError` escaping from
`_analyze_security_risks`. -/
def analyzeUrlStep (url : String) (st : AnalyzerState) :
    Option (UniversalResult × (Nat × Nat)) :=
  match analyzeSecurityRisks url with
  | none => none
  | some sec =>
    let info := classifyScheme url
    let pats := patternMatchIdxs url
    let result : UniversalResult :=
      { overall_risk_score := calculateRiskScore (analyzerScheme url) st,
        security_score := sec.risk_score,
        pattern_idxs := pats,
        category := info.category,
        base_risk_level := info.risk_level }
    some (result, (sec.risk_score, pats.length))

/-- `analyze_url` on a freshly constructed `UniversalURLAnalyzer`
(`__init__` sets `self.analysis_result = {}`). -/
def analyzeUrlFirst (url : String) : Option UniversalResult :=
  (analyzeUrlStep url none).map (fun x => x.1)

/-! ## `enhanced_main.py` — category detection, verdicts, aggregation -/

/-- `detect_url_category`: anchored case-insensitive prefix patterns,
tried in `URL_SCHEME_PATTERNS` insertion order. -/
def detectUrlCategory (url : String) : String :=
  let l := lowerStr url
  if strStartsWith l "http://" || strStartsWith l "https://" then "web"
  else if strStartsWith l "ftp://" || strStartsWith l "ftps://" then "ftp"
  else if strStartsWith l "file://" then "file"
  else if strStartsWith l "data:" then "data"
  else if strStartsWith l "mailto:" then "mailto"
  else if strStartsWith l "ssh://" || strStartsWith l "telnet://" ||
          strStartsWith l "rdp://" || strStartsWith l "vnc://" then "remote"
  else if strStartsWith l "magnet:" || strStartsWith l "torrent:" then "p2p"
  else if strStartsWith l "bitcoin:" || strStartsWith l "ethereum:" then "crypto"
  else "unknown"

/-- Python `int()` on a rational (truncation toward zero). -/
def pyInt (q : ℚ) : ℤ :=
  if 0 ≤ q then ⌊q⌋ else ⌈q⌉

/-- The non-web verdict mapping of `analyze_url` /
`analyze_single_url_internal` (prediction, confidence) from
`universal_risk`. -/
def verdictFromUniversalRisk (r : Nat) : String × ℚ :=
  if r > 70 then ("phishing", (r : ℚ) / 100)
  else if r > 40 then ("suspicious", 0.6)
  else ("safe", 1 - (r : ℚ) / 100)

/-- `ml_risk = int(confidence * 100) if prediction == "phishing" else
int((1 - confidence) * 100)`. -/
def mlRisk (prediction : String) (confidence : ℚ) : ℤ :=
  if prediction = "phishing" then pyInt (confidence * 100)
  else pyInt ((1 - confidence) * 100)

/-- The ML collaborator output consumed by the aggregation:
`label` is `predictions[0]` and `maxProb` is
`float(max(probabilities[0]))`. -/
structure MLOutput where
  label : ℤ
  maxProb : ℚ
  deriving DecidableEq, Repr

/-- `AdvancedPhishingModel.predict`'s guard: with no loaded ensemble it
raises `ValueError("Model not trained yet")`; otherwise the ensemble's
output is returned. -/
def predictChecked (modelLoaded : Bool) (out : MLOutput) : Except String MLOutput :=
  if modelLoaded then .ok out else .error "Model not trained yet"

/-- The ML try-block of `analyze_url`: any exception from prediction is
caught and logged, leaving the default prediction in place. -/
def mlOutcome (modelLoaded : Bool) (out : MLOutput) : Option MLOutput :=
  match predictChecked modelLoaded out with
  | .ok o => some o
  | .error _ => none

structure VerdictOut where
  prediction : String
  confidence : ℚ
  risk_score : ℤ
  deriving DecidableEq, Repr

/-- The `prediction`/`confidence` locals after the web/non-web split:
for web URLs the ML outcome (or the surviving defaults `"safe"`, `0.5`
when the ML try-block raised), otherwise the universal-risk verdict. -/
def predConfOf (url : String) (ml : Option MLOutput) (ua : UniversalResult) : String × ℚ :=
  if detectUrlCategory url = "web" then
    match ml with
    | some m => (if m.label = -1 then "phishing" else "safe", m.maxProb)
    | none => ("safe", 1 / 2)
  else
    verdictFromUniversalRisk ua.overall_risk_score

/-- `analyze_single_url_internal` (same aggregation as the `/analyze`
endpoint body): universal analysis, the web/non-web split, then
`risk_score = max(base_risk, ml_risk)`.  `ml` is the outcome of the ML
try-block (`none` when it raised and the defaults survive); a raising
universal analysis yields the error response. -/
def analyzeSingleUrlInternal (url : String) (ml : Option MLOutput) : VerdictOut :=
  match analyzeUrlFirst url with
  | none => { prediction := "error", confidence := 0, risk_score := 50 }
  | some ua =>
    let predConf := predConfOf url ml ua
    { prediction := predConf.1,
      confidence := predConf.2,
      risk_score := max (ua.overall_risk_score : ℤ) (mlRisk predConf.1 predConf.2) }

/-! ## `enhanced_feature_extractor.py` — `EnhancedFeatureExtraction`

The extractor's gathered state (`self.soup`, `self.response_content`,
`self.whois_info`, `self.dns_info`) is external collaborator data: page
fetch, WHOIS, DNS.  It enters as an explicit environment.  A failed
fetch leaves `soup = None` and `response_content = ""`; failed lookups
leave the WHOIS/DNS dicts empty. -/

/-- The parts of the parsed page (`self.soup`) that the 30 checks read. -/
structure Page where
  /-- `href` of the first favicon `link` tag, `none` when there are none. -/
  faviconHref : Option String
  /-- `src` attributes of `img`/`audio`/`embed`/`iframe` tags (`""` when absent). -/
  resourceSrcs : List String
  /-- `href` attributes of the `a[href]` tags. -/
  anchorHrefs : List String
  /-- `src` attributes of the `script` tags (`""` when absent); its length is the script-tag count. -/
  scriptSrcs : List String
  /-- `action` attributes of the `form` tags (`""` when absent). -/
  formActions : List String
  /-- per `iframe` tag: `frameborder == '0' or border == '0'`. -/
  iframeBorderZero : List Bool
  deriving DecidableEq, Repr

/-- The parts of `self.whois_info` that the checks read.  `none` in a
field models a missing key or a non-`datetime`/non-`str` value. -/
structure WhoisInfo where
  /-- days until `expiration_date` (list-unwrapped), when it is a datetime. -/
  expirationDays : Option ℤ
  /-- days since `creation_date` (list-unwrapped), when it is a datetime. -/
  creationAge : Option ℤ
  /-- `domain_name` (list-unwrapped), when it is a string. -/
  domainName : Option String
  deriving DecidableEq, Repr

structure FetchEnv where
  /-- `self.soup` (`none` when the fetch failed). -/
  page : Option Page
  /-- `self.response_content` (`""` when the fetch failed). -/
  content : String
  /-- domains of the e-mail addresses the regex finds in the content. -/
  emailDomains : List String
  /-- `self.whois_info` (`none` models the empty dict). -/
  whois : Option WhoisInfo
  /-- `bool(self.dns_info)`. -/
  dnsNonempty : Bool
  deriving DecidableEq, Repr

/-- The environment forced when the input is not fetchable and every
real-time lookup fails. -/
def emptyFetchEnv : FetchEnv :=
  { page := none, content := "", emailDomains := [], whois := none, dnsNonempty := false }

def _using_ip (domain : String) : ℤ :=
  if isIPv4 domain.data then -1 else 1

def _long_url (url : String) : ℤ :=
  if url.length < 54 then 1 else if url.length ≤ 75 then 0 else -1

def shorteningServices : List String :=
  [ "bit.ly", "goo.gl", "shorte.st", "go2l.ink", "x.co", "ow.ly",
    "t.co", "tinyurl", "tr.im", "is.gd", "cli.gs", "yfrog.com",
    "migre.me", "ff.im", "tiny.cc", "url4.eu", "twit.ac", "su.pr",
    "twurl.nl", "snipurl.com", "short.to", "budurl.com", "ping.fm",
    "post.ly", "just.as", "bkite.com", "snipr.com", "fic.kr",
    "loopt.us", "doiop.com", "short.ie", "kl.am", "wp.me",
    "rubyurl.com", "om.ly", "to.ly", "bit.do", "lnkd.in",
    "db.tt", "qr.ae", "adf.ly", "bitly.com", "cur.lv",
    "tinyurl.com", "ity.im", "q.gs", "po.st", "bc.vc",
    "twitthis.com", "u.to", "j.mp", "buzurl.com", "cutt.us",
    "u.bb", "yourls.org", "prettylinkpro.com", "scrnch.me",
    "filoops.info", "vzturl.com", "qr.net", "1url.com",
    "tweez.me", "v.gd", "7ax.link" ]

def _short_url (domain : String) : ℤ :=
  if shorteningServices.any (fun s => hasSubstr s.data domain.data) then -1 else 1

def _symbol (url : String) : ℤ :=
  if url.data.contains '@' then -1 else 1

def _redirecting (url : String) : ℤ :=
  if pyRfind "//".data url.data > 6 then -1 else 1

def _prefix_suffix (domain : String) : ℤ :=
  if domain.data.contains '-' then -1 else 1

def _sub_domains (domain : String) : ℤ :=
  let dots := countChar '.' domain.data
  if dots = 1 then 1 else if dots = 2 then 0 else -1

def _https (url : String) : ℤ :=
  if strStartsWith url "https://" then 1 else -1

def _domain_reg_len (whois : Option WhoisInfo) : ℤ :=
  match whois with
  | none => -1
  | some w =>
    match w.expirationDays with
    | some d => if d > 365 then 1 else -1
    | none => -1

def _favicon (domain : String) (page : Option Page) : ℤ :=
  match page with
  | none => 0
  | some pg =>
    match pg.faviconHref with
    | some href =>
      if strStartsWith href "http" && !hasSubstr domain.data href.data then -1 else 1
    | none => 1

def _non_std_port (port : Option Nat) : ℤ :=
  match port with
  | some p => if p ≠ 0 && !([80, 443].contains p) then -1 else 1
  | none => 1

def _https_domain_url (domain : String) : ℤ :=
  if hasSubstr "https".data domain.data then -1 else 1

def _request_url (domain : String) (page : Option Page) : ℤ :=
  match page with
  | none => 1
  | some pg =>
    let srcs := pg.resourceSrcs.filter (fun s => s ≠ "")
    let ext := srcs.filter (fun s => strStartsWith s "http" && !hasSubstr domain.data s.data)
    if srcs.length = 0 then 1
    else
      let pct : ℚ := (ext.length : ℚ) / (srcs.length : ℚ) * 100
      if pct < 22 then 1 else if pct < 61 then 0 else -1

def _anchor_url (domain : String) (page : Option Page) : ℤ :=
  match page with
  | none => 1
  | some pg =>
    if pg.anchorHrefs.isEmpty then 1
    else
      let bad := pg.anchorHrefs.filter (fun h =>
        h = "#" || h = "#content" || h = "#skip" || h = "JavaScript::void(0)" ||
        strStartsWith h "mailto:" ||
        (strStartsWith h "http" && !hasSubstr domain.data h.data))
      let pct : ℚ := (bad.length : ℚ) / (pg.anchorHrefs.length : ℚ) * 100
      if pct < 31 then 1 else if pct < 67 then 0 else -1

def _links_in_script_tags (domain : String) (page : Option Page) : ℤ :=
  match page with
  | none => 1
  | some pg =>
    let ext := pg.scriptSrcs.filter (fun s =>
      s ≠ "" && strStartsWith s "http" && !hasSubstr domain.data s.data)
    let pct : ℚ :=
      if pg.scriptSrcs.isEmpty then 0
      else (ext.length : ℚ) / (pg.scriptSrcs.length : ℚ) * 100
    if pct < 17 then 1 else if pct < 81 then 0 else -1

def _server_form_handler (domain : String) (page : Option Page) : ℤ :=
  match page with
  | none => 1
  | some pg =>
    if pg.formActions.any (fun a =>
        a = "" || a = "about:blank" ||
        (strStartsWith a "http" && !hasSubstr domain.data a.data)) then -1
    else 1

def _info_email (domain : String) (env : FetchEnv) : ℤ :=
  if env.content = "" then 1
  else if env.emailDomains.any (fun d => d ≠ domain) then -1 else 1

def _abnormal_url (url : String) (whois : Option WhoisInfo) : ℤ :=
  match whois with
  | none => -1
  | some w =>
    match w.domainName with
    | some h => if hasSubstr (lowerStr h).data (lowerStr url).data then 1 else -1
    | none => -1

def _website_forwarding : ℤ := 0

def _status_bar_cust (content : String) : ℤ :=
  if content = "" then 1
  else if hasSubstr "onMouseOver=\"window.status".data content.data ||
          hasSubstr "onClick=\"window.status".data content.data then -1
  else 1

def _disable_right_click (content : String) : ℤ :=
  if content = "" then 1
  else if ["event.button==2", "event.button==3", "contextmenu",
           "onselectstart", "ondragstart"].any
            (fun p => hasSubstr p.data content.data) then -1
  else 1

def _using_popup_window (content : String) : ℤ :=
  if content = "" then 1
  else if ["window.open(", "popup", "alert("].any
            (fun p => hasSubstr p.data content.data) then -1
  else 1

def _iframe_redirection (page : Option Page) : ℤ :=
  match page with
  | none => 1
  | some pg => if pg.iframeBorderZero.any (fun b => b) then -1 else 1

def _age_of_domain (whois : Option WhoisInfo) : ℤ :=
  match whois with
  | none => -1
  | some w =>
    match w.creationAge with
    | some d => if d > 180 then 1 else -1
    | none => -1

def _dns_recording (dnsNonempty : Bool) : ℤ :=
  if dnsNonempty then 1 else -1

def _website_traffic : ℤ := 0

def _page_rank : ℤ := 0

def _google_index : ℤ := 0

def _links_pointing_to_page (page : Option Page) : ℤ :=
  match page with
  | none => 1
  | some pg => if pg.anchorHrefs.length > 0 then 1 else -1

def suspiciousHosts : List String :=
  [ "at.ua", "usa.cc", "baltazarpresentes.com.br", "pe.hu",
    "esy.es", "hol.es", "sweddy.com", "myjino.ru", "96.lt" ]

def _stats_report (domain : String) : ℤ :=
  if suspiciousHosts.any (fun h => hasSubstr h.data domain.data) then -1 else 1

/-- `extract_all_features`.  When `urlparse` raised in `__init__`
(`self.parsed_url = None`) the `.port` access in `_non_std_port` raises
`AttributeError`, and an invalid port raises `ValueError` there; either
lands in the outer handler, which returns `[1] * 30`. -/
def extract_all_features (url : String) (env : FetchEnv) : List ℤ :=
  match urlparseE url with
  | none => List.replicate 30 1
  | some p =>
    if portRaises p.netloc.data then List.replicate 30 1
    else
      let domain := p.netloc
      [ _using_ip domain,
        _long_url url,
        _short_url domain,
        _symbol url,
        _redirecting url,
        _prefix_suffix domain,
        _sub_domains domain,
        _https url,
        _domain_reg_len env.whois,
        _favicon domain env.page,
        _non_std_port (portOf domain.data),
        _https_domain_url domain,
        _request_url domain env.page,
        _anchor_url domain env.page,
        _links_in_script_tags domain env.page,
        _server_form_handler domain env.page,
        _info_email domain env,
        _abnormal_url url env.whois,
        _website_forwarding,
        _status_bar_cust env.content,
        _disable_right_click env.content,
        _using_popup_window env.content,
        _iframe_redirection env.page,
        _age_of_domain env.whois,
        _dns_recording env.dnsNonempty,
        _website_traffic,
        _page_rank,
        _google_index,
        _links_pointing_to_page env.page,
        _stats_report domain ]

/-! ## Helper lemmas -/

/-- A successful `lookup` returns one of the association list's values. -/
theorem lookup_mem_snd {β : Type} (l : List (String × β)) (s : String) (b : β)
    (h : l.lookup s = some b) : b ∈ l.map (fun p => p.2) := by
  induction l with
  | nil => simp [List.lookup] at h
  | cons p t ih =>
    obtain ⟨k, v⟩ := p
    rw [List.lookup] at h
    by_cases hk : (s == k) = true
    · rw [hk] at h
      simp at h
      simp [h]
    · rw [Bool.not_eq_true] at hk
      rw [hk] at h
      simp [ih h]

/-- Every entry of `URL_SCHEMES` carries one of the three risk levels,
so the `scheme_risks.get(..., 50)` default is unreachable. -/
theorem urlSchemesGet_risk_level (s : String) :
    (urlSchemesGet s).risk_level = "high" ∨ (urlSchemesGet s).risk_level = "medium" ∨
      (urlSchemesGet s).risk_level = "low" := by
  unfold urlSchemesGet
  cases h : URL_SCHEMES.lookup s with
  | none => left; rfl
  | some info =>
    have hall : ∀ b ∈ URL_SCHEMES.map (fun p => p.2),
        b.risk_level = "high" ∨ b.risk_level = "medium" ∨ b.risk_level = "low" := by decide
    simpa using hall info (lookup_mem_snd _ _ _ h)

/-- The numeric scheme base offset the aggregator starts from. -/
def schemeBaseOffset (url : String) : Nat :=
  (schemeRisks.lookup (classifyScheme url).risk_level).getD 50

theorem schemeBaseOffset_cases (url : String) :
    schemeBaseOffset url = 5 ∨ schemeBaseOffset url = 20 ∨ schemeBaseOffset url = 40 := by
  unfold schemeBaseOffset
  rcases urlSchemesGet_risk_level (analyzerScheme url) with h | h | h <;>
    rw [show classifyScheme url = urlSchemesGet (analyzerScheme url) from rfl, h] <;> decide

theorem calculateRiskScore_fresh (url : String) :
    calculateRiskScore (analyzerScheme url) none = min (schemeBaseOffset url) 100 := by
  unfold calculateRiskScore schemeBaseOffset classifyScheme
  simp

/-- On a fresh analyzer, the reported score is the fresh-state risk
score, and the other reported fields are as computed. -/
theorem analyzeUrlFirst_spec (url : String) (ua : UniversalResult)
    (h : analyzeUrlFirst url = some ua) :
    ua.overall_risk_score = calculateRiskScore (analyzerScheme url) none := by
  unfold analyzeUrlFirst analyzeUrlStep at h
  cases hs : analyzeSecurityRisks url <;> rw [hs] at h
  · simp at h
  · simp only [Option.map_some', Option.some.injEq] at h
    rw [← h]

theorem overall_le_100 (url : String) (ua : UniversalResult)
    (h : analyzeUrlFirst url = some ua) : ua.overall_risk_score ≤ 100 := by
  rw [analyzeUrlFirst_spec url ua h, calculateRiskScore_fresh]
  exact min_le_right _ _

/-! ## The claims -/

/-- C10: the suspicious-pattern tag list and the scheme classification
reported by `analyze_url` are the same whatever the analyzer's mutable
`analysis_result` state is — in particular two analyses of the same URL
string report identical pattern tags and scheme classifications; both
are deterministic functions of the input string alone. -/
theorem c10_patterns_and_scheme_deterministic (url : String) (s₁ s₂ : AnalyzerState) :
    (analyzeUrlStep url s₁).map
        (fun x => (x.1.pattern_idxs, x.1.category, x.1.base_risk_level)) =
      (analyzeUrlStep url s₂).map
        (fun x => (x.1.pattern_idxs, x.1.category, x.1.base_risk_level)) := by
  unfold analyzeUrlStep
  cases analyzeSecurityRisks url <;> rfl

/-- C8: scheme classification is total (the embedding is a total
function; `__init__` catches the one possible `urlparse` error), and any
scheme without a `URL_SCHEMES` entry — including unparseable input and
input with no scheme, for which the analyzer's scheme is the string
`"unknown"` — classifies as the sentinel
`{category := "unknown", base_risk_level := "high"}`. -/
theorem c8_unknown_schemes_map_to_sentinel (url : String) :
    (URL_SCHEMES.lookup (analyzerScheme url) = none →
      classifyScheme url = unknownSchemeInfo) ∧
    (analyzerScheme url = "unknown" → classifyScheme url = unknownSchemeInfo) := by
  constructor
  · intro h
    unfold classifyScheme urlSchemesGet
    rw [h]
    rfl
  · intro h
    unfold classifyScheme
    rw [h]
    decide

theorem c8_witness :
    classifyScheme "foo://bar" = unknownSchemeInfo ∧
      classifyScheme ":" = unknownSchemeInfo :=
  ⟨(c8_unknown_schemes_map_to_sentinel "foo://bar").1 (by decide),
   (c8_unknown_schemes_map_to_sentinel ":").2 (by decide)⟩

/-- C2: whenever the first `analyze_url` call on a freshly constructed
`UniversalURLAnalyzer` returns, its `overall_risk_score` equals the
scheme base offset alone (`_calculate_risk_score` reads the
`self.analysis_result` set by `__init__`, still the empty dict), hence
is one of 5, 20, 40, and the non-web verdict mapping can never call it
`"phishing"`. -/
theorem c2_first_call_scores_scheme_base_only (url : String) (ua : UniversalResult)
    (h : analyzeUrlFirst url = some ua) :
    ua.overall_risk_score = schemeBaseOffset url ∧
    (ua.overall_risk_score = 5 ∨ ua.overall_risk_score = 20 ∨
      ua.overall_risk_score = 40) ∧
    (verdictFromUniversalRisk ua.overall_risk_score).1 ≠ "phishing" := by
  rw [analyzeUrlFirst_spec url ua h, calculateRiskScore_fresh]
  rcases schemeBaseOffset_cases url with hb | hb | hb <;> rw [hb] <;> decide

theorem c2_witness :
    ((5 : Nat) = schemeBaseOffset "tel:1") ∧
    ((5 : Nat) = 5 ∨ (5 : Nat) = 20 ∨ (5 : Nat) = 40) ∧
    (verdictFromUniversalRisk 5).1 ≠ "phishing" :=
  c2_first_call_scores_scheme_base_only "tel:1"
    { overall_risk_score := 5, security_score := 0, pattern_idxs := [],
      category := "mobile", base_risk_level := "low" }
    (by decide)

/-- C1 (documenting the slip): for the non-web URL
`"ftp://malware.test/x"` the analysis reports security risk score 40 and
one matched suspicious pattern, so `_calculate_risk_score`'s own formula
over those analyses — `min(scheme_base + security + 10·patterns, 100)`,
evaluated here on the populated state — gives 90, yet the first call
returns `overall_risk_score = 40`: the dict literal in `analyze_url`
invokes `_calculate_risk_score` before `self.analysis_result` is
assigned, so the security and pattern contributions are dropped. -/
theorem c1_first_call_contradicts_additive_formula :
    analyzeUrlFirst "ftp://malware.test/x" =
      some { overall_risk_score := 40, security_score := 40, pattern_idxs := [3],
             category := "file_transfer", base_risk_level := "high" } ∧
    calculateRiskScore "ftp" (some (40, 1)) = 90 ∧
    (analyzeUrlStep "ftp://malware.test/x" (some (40, 1))).map
        (fun x => x.1.overall_risk_score) = some 90 := by
  refine ⟨by decide, by decide, by decide⟩

/-- C6: for the schemeless string `"not a url at all"` the scheme
classifies as the `"unknown"`/high sentinel and `analyze_url` returns
without raising, but feature extraction (with the forced environment:
the fetch of a schemeless string fails, WHOIS/DNS lookups fail) does
*not* return the all-1s default vector — the sub-checks run and several
report -1/0 (the all-1s vector occurs only when the whole extraction
raises). -/
theorem c6_schemeless_extraction_not_all_ones :
    classifyScheme "not a url at all" = unknownSchemeInfo ∧
    analyzerScheme "not a url at all" = "unknown" ∧
    (analyzeUrlFirst "not a url at all").isSome = true ∧
    extract_all_features "not a url at all" emptyFetchEnv =
      [1, 1, 1, 1, 1, 1, -1, -1, -1, 0, 1, 1, 1, 1, 1, 1, 1, -1, 0,
       1, 1, 1, 1, -1, -1, 0, 0, 0, 1, 1] := by
  refine ⟨by decide, by decide, by decide, by decide⟩

/-- C6 counterexample: the claimed all-1s default vector is not what
feature extraction returns on `"not a url at all"` (e.g. `_sub_domains`
sees zero dots in the empty netloc and reports -1). -/
theorem c6_counterexample :
    extract_all_features "not a url at all" emptyFetchEnv ≠
      List.replicate 30 1 := by
  decide

/-- C3 (actual behaviour): when no model is loaded, `predict` raises the
generic `ValueError("Model not trained yet")` — there is no typed
`ModelUnavailableError` — and the `analyze_url` ML try-block catches it,
so a web-scheme URL still yields a verdict, with the default prediction
`"safe"` and confidence `0.5`. -/
theorem c3_no_model_yields_default_verdict (url : String) (m : MLOutput)
    (ua : UniversalResult) (hweb : detectUrlCategory url = "web")
    (hok : analyzeUrlFirst url = some ua) :
    predictChecked false m = Except.error "Model not trained yet" ∧
    mlOutcome false m = none ∧
    (analyzeSingleUrlInternal url (mlOutcome false m)).prediction = "safe" ∧
    (analyzeSingleUrlInternal url (mlOutcome false m)).confidence = 1 / 2 := by
  refine ⟨rfl, rfl, ?_, ?_⟩ <;>
    simp [analyzeSingleUrlInternal, hok, predConfOf, hweb, mlOutcome, predictChecked]

theorem c3_witness :
    predictChecked false { label := 1, maxProb := 3 / 4 } =
      Except.error "Model not trained yet" ∧
    mlOutcome false { label := 1, maxProb := 3 / 4 } = none ∧
    (analyzeSingleUrlInternal "http://example.com/"
      (mlOutcome false { label := 1, maxProb := 3 / 4 })).prediction = "safe" ∧
    (analyzeSingleUrlInternal "http://example.com/"
      (mlOutcome false { label := 1, maxProb := 3 / 4 })).confidence = 1 / 2 :=
  c3_no_model_yields_default_verdict "http://example.com/"
    { label := 1, maxProb := 3 / 4 }
    { overall_risk_score := 20, security_score := 0, pattern_idxs := [],
      category := "web", base_risk_level := "medium" }
    (by decide) (by decide)

/-- C3 counterexample to the claim as stated: with no model loaded, the
analysis of the web URL `"http://example.com/"` does return a verdict
(prediction `"safe"`, confidence `0.5`, risk score 50) instead of
failing, and the only error anywhere is the untyped
`ValueError("Model not trained yet")` inside `predict`. -/
theorem c3_counterexample :
    (analyzeSingleUrlInternal "http://example.com/"
        (mlOutcome false { label := -1, maxProb := 9 / 10 })).prediction = "safe" ∧
    (analyzeSingleUrlInternal "http://example.com/"
        (mlOutcome false { label := -1, maxProb := 9 / 10 })).confidence = 1 / 2 ∧
    (analyzeSingleUrlInternal "http://example.com/"
        (mlOutcome false { label := -1, maxProb := 9 / 10 })).risk_score = 50 ∧
    predictChecked false { label := -1, maxProb := 9 / 10 } =
      Except.error "Model not trained yet" := by
  have hok : analyzeUrlFirst "http://example.com/" = some
      { overall_risk_score := 20, security_score := 0, pattern_idxs := [],
        category := "web", base_risk_level := "medium" } := by decide
  have hweb : detectUrlCategory "http://example.com/" = "web" := by decide
  refine ⟨?_, ?_, ?_, rfl⟩ <;>
    simp [analyzeSingleUrlInternal, hok, predConfOf, hweb, mlOutcome, predictChecked]
  norm_num [mlRisk, pyInt]

/-- C9: for web URLs whose analysis succeeds, the ensemble label -1 maps
to prediction `"phishing"` and the label +1 maps to `"safe"`. -/
theorem c9_label_sign_convention (url : String) (m : MLOutput) (ua : UniversalResult)
    (hweb : detectUrlCategory url = "web") (hok : analyzeUrlFirst url = some ua) :
    (m.label = -1 →
      (analyzeSingleUrlInternal url (some m)).prediction = "phishing") ∧
    (m.label = 1 →
      (analyzeSingleUrlInternal url (some m)).prediction = "safe") := by
  constructor <;> intro hl <;>
    simp [analyzeSingleUrlInternal, hok, predConfOf, hweb, hl]

theorem c9_witness :
    (analyzeSingleUrlInternal "http://example.com/"
      (some { label := -1, maxProb := 9 / 10 })).prediction = "phishing" ∧
    (analyzeSingleUrlInternal "http://example.com/"
      (some { label := 1, maxProb := 9 / 10 })).prediction = "safe" :=
  ⟨(c9_label_sign_convention "http://example.com/" { label := -1, maxProb := 9 / 10 }
      { overall_risk_score := 20, security_score := 0, pattern_idxs := [],
        category := "web", base_risk_level := "medium" }
      (by decide) (by decide)).1 rfl,
   (c9_label_sign_convention "http://example.com/" { label := 1, maxProb := 9 / 10 }
      { overall_risk_score := 20, security_score := 0, pattern_idxs := [],
        category := "web", base_risk_level := "medium" }
      (by decide) (by decide)).2 rfl⟩

/-- C5: for non-web URLs whose analysis succeeds, the verdict follows
the universal risk score `r`: `r > 70` gives `"phishing"` with
confidence `r/100`; `40 < r ≤ 70` gives `"suspicious"` with fixed
confidence `0.6`; `r ≤ 40` gives `"safe"` with confidence `1 - r/100`. -/
theorem c5_nonweb_verdict_thresholds (url : String) (ml : Option MLOutput)
    (ua : UniversalResult) (hnw : detectUrlCategory url ≠ "web")
    (hok : analyzeUrlFirst url = some ua) :
    (70 < ua.overall_risk_score →
      (analyzeSingleUrlInternal url ml).prediction = "phishing" ∧
      (analyzeSingleUrlInternal url ml).confidence =
        (ua.overall_risk_score : ℚ) / 100) ∧
    (40 < ua.overall_risk_score → ua.overall_risk_score ≤ 70 →
      (analyzeSingleUrlInternal url ml).prediction = "suspicious" ∧
      (analyzeSingleUrlInternal url ml).confidence = 0.6) ∧
    (ua.overall_risk_score ≤ 40 →
      (analyzeSingleUrlInternal url ml).prediction = "safe" ∧
      (analyzeSingleUrlInternal url ml).confidence =
        1 - (ua.overall_risk_score : ℚ) / 100) := by
  refine ⟨fun h1 => ?_, fun h1 h2 => ?_, fun h1 => ?_⟩
  · simp [analyzeSingleUrlInternal, hok, predConfOf, hnw,
      verdictFromUniversalRisk, h1]
  · have hn1 : ¬ 70 < ua.overall_risk_score := not_lt.mpr h2
    simp [analyzeSingleUrlInternal, hok, predConfOf, hnw,
      verdictFromUniversalRisk, hn1, h1]
  · have hn1 : ¬ 70 < ua.overall_risk_score :=
      not_lt.mpr (le_trans h1 (by norm_num))
    have hn2 : ¬ 40 < ua.overall_risk_score := not_lt.mpr h1
    simp [analyzeSingleUrlInternal, hok, predConfOf, hnw,
      verdictFromUniversalRisk, hn1, hn2]

theorem c5_witness :
    (analyzeSingleUrlInternal "ftp://example.com/f" none).prediction = "safe" ∧
    (analyzeSingleUrlInternal "ftp://example.com/f" none).confidence =
      1 - ((40 : Nat) : ℚ) / 100 :=
  (c5_nonweb_verdict_thresholds "ftp://example.com/f" none
    { overall_risk_score := 40, security_score := 40, pattern_idxs := [],
      category := "file_transfer", base_risk_level := "high" }
    (by decide) (by decide)).2.2 (by decide)

theorem pyInt_bounds (q : ℚ) (h0 : 0 ≤ q) (h100 : q ≤ 100) :
    0 ≤ pyInt q ∧ pyInt q ≤ 100 := by
  rw [pyInt, if_pos h0]
  constructor
  · exact Int.floor_nonneg.mpr h0
  · have h2 : q ≤ ((100 : ℤ) : ℚ) := by exact_mod_cast h100
    have h3 := Int.floor_le_floor h2
    rwa [Int.floor_intCast] at h3

theorem mlRisk_bounds (pred : String) (conf : ℚ) (h0 : 0 ≤ conf) (h1 : conf ≤ 1) :
    0 ≤ mlRisk pred conf ∧ mlRisk pred conf ≤ 100 := by
  rw [mlRisk]
  split
  · exact pyInt_bounds _ (by nlinarith) (by nlinarith)
  · exact pyInt_bounds _ (by nlinarith) (by nlinarith)

theorem verdict_conf_bounds (r : Nat) (hr : r ≤ 100) :
    0 ≤ (verdictFromUniversalRisk r).2 ∧ (verdictFromUniversalRisk r).2 ≤ 1 := by
  have hrq : ((r : ℚ)) ≤ 100 := by exact_mod_cast hr
  have hr0 : (0 : ℚ) ≤ (r : ℚ) := Nat.cast_nonneg r
  rw [verdictFromUniversalRisk]
  split
  · constructor
    · positivity
    · rw [div_le_one (by norm_num)]
      exact hrq
  · split
    · norm_num
    · constructor
      · simp only []
        linarith
      · simp only []
        linarith

theorem predConf_bounds (url : String) (ml : Option MLOutput) (ua : UniversalResult)
    (hml : ∀ m, ml = some m → 0 ≤ m.maxProb ∧ m.maxProb ≤ 1)
    (hb : ua.overall_risk_score ≤ 100) :
    0 ≤ (predConfOf url ml ua).2 ∧ (predConfOf url ml ua).2 ≤ 1 := by
  rw [predConfOf.eq_def]
  split
  · cases ml with
    | none => norm_num
    | some m => simpa using hml m rfl
  · exact verdict_conf_bounds _ hb

/-- C4: whatever the URL and the ML collaborator's output (its winning
probability being a probability), the verdict's `risk_score` — an
integer by construction — lies in [0, 100]: the universal component is
capped by `min(_, 100)` inside `_calculate_risk_score`, the ML component
is a truncated probability scaled to [0, 100], and the aggregator takes
their `max`. -/
theorem c4_risk_score_within_bounds (url : String) (ml : Option MLOutput)
    (hml : ∀ m, ml = some m → 0 ≤ m.maxProb ∧ m.maxProb ≤ 1) :
    0 ≤ (analyzeSingleUrlInternal url ml).risk_score ∧
    (analyzeSingleUrlInternal url ml).risk_score ≤ 100 := by
  rw [analyzeSingleUrlInternal]
  cases hok : analyzeUrlFirst url with
  | none => norm_num
  | some ua =>
    have hb : ua.overall_risk_score ≤ 100 := overall_le_100 url ua hok
    obtain ⟨hc0, hc1⟩ := predConf_bounds url ml ua hml hb
    obtain ⟨hm0, hm1⟩ := mlRisk_bounds (predConfOf url ml ua).1 _ hc0 hc1
    dsimp only
    constructor
    · exact le_max_of_le_right hm0
    · apply max_le
      · exact_mod_cast hb
      · exact hm1

theorem c4_witness :
    0 ≤ (analyzeSingleUrlInternal "tel:1" none).risk_score ∧
    (analyzeSingleUrlInternal "tel:1" none).risk_score ≤ 100 :=
  c4_risk_score_within_bounds "tel:1" none (fun _ h => nomatch h)

/-! Range lemmas: every feature check returns a signed-trinary value. -/

theorem tri_using_ip (d : String) : _using_ip d = -1 ∨ _using_ip d = 0 ∨ _using_ip d = 1 := by
  unfold _using_ip; split_ifs <;> simp

theorem tri_long_url (u : String) : _long_url u = -1 ∨ _long_url u = 0 ∨ _long_url u = 1 := by
  unfold _long_url; split_ifs <;> simp

theorem tri_short_url (d : String) : _short_url d = -1 ∨ _short_url d = 0 ∨ _short_url d = 1 := by
  unfold _short_url; split_ifs <;> simp

theorem tri_symbol (u : String) : _symbol u = -1 ∨ _symbol u = 0 ∨ _symbol u = 1 := by
  unfold _symbol; split_ifs <;> simp

theorem tri_redirecting (u : String) :
    _redirecting u = -1 ∨ _redirecting u = 0 ∨ _redirecting u = 1 := by
  unfold _redirecting; split_ifs <;> simp

theorem tri_prefix_suffix (d : String) :
    _prefix_suffix d = -1 ∨ _prefix_suffix d = 0 ∨ _prefix_suffix d = 1 := by
  unfold _prefix_suffix; split_ifs <;> simp

theorem tri_sub_domains (d : String) :
    _sub_domains d = -1 ∨ _sub_domains d = 0 ∨ _sub_domains d = 1 := by
  unfold _sub_domains; dsimp only; split_ifs <;> simp

theorem tri_https (u : String) : _https u = -1 ∨ _https u = 0 ∨ _https u = 1 := by
  unfold _https; split_ifs <;> simp

theorem tri_domain_reg_len (w : Option WhoisInfo) :
    _domain_reg_len w = -1 ∨ _domain_reg_len w = 0 ∨ _domain_reg_len w = 1 := by
  unfold _domain_reg_len
  rcases w with _ | w
  · simp
  · rcases hw : w.expirationDays with _ | d
    · simp [hw]
    · simp only [hw]
      split_ifs <;> simp

theorem tri_favicon (d : String) (pg : Option Page) :
    _favicon d pg = -1 ∨ _favicon d pg = 0 ∨ _favicon d pg = 1 := by
  unfold _favicon
  rcases pg with _ | pg
  · simp
  · rcases hf : pg.faviconHref with _ | href
    · simp [hf]
    · simp only [hf]
      split_ifs <;> simp

theorem tri_non_std_port (p : Option Nat) :
    _non_std_port p = -1 ∨ _non_std_port p = 0 ∨ _non_std_port p = 1 := by
  unfold _non_std_port
  rcases p with _ | p
  · simp
  · dsimp only; split_ifs <;> simp

theorem tri_https_domain_url (d : String) :
    _https_domain_url d = -1 ∨ _https_domain_url d = 0 ∨ _https_domain_url d = 1 := by
  unfold _https_domain_url; split_ifs <;> simp

theorem tri_request_url (d : String) (pg : Option Page) :
    _request_url d pg = -1 ∨ _request_url d pg = 0 ∨ _request_url d pg = 1 := by
  unfold _request_url
  rcases pg with _ | pg
  · simp
  · dsimp only; split_ifs <;> simp

theorem tri_anchor_url (d : String) (pg : Option Page) :
    _anchor_url d pg = -1 ∨ _anchor_url d pg = 0 ∨ _anchor_url d pg = 1 := by
  unfold _anchor_url
  rcases pg with _ | pg
  · simp
  · dsimp only; split_ifs <;> simp

theorem tri_links_in_script_tags (d : String) (pg : Option Page) :
    _links_in_script_tags d pg = -1 ∨ _links_in_script_tags d pg = 0 ∨
      _links_in_script_tags d pg = 1 := by
  unfold _links_in_script_tags
  rcases pg with _ | pg
  · simp
  · dsimp only; split_ifs <;> simp

theorem tri_server_form_handler (d : String) (pg : Option Page) :
    _server_form_handler d pg = -1 ∨ _server_form_handler d pg = 0 ∨
      _server_form_handler d pg = 1 := by
  unfold _server_form_handler
  rcases pg with _ | pg
  · simp
  · dsimp only; split_ifs <;> simp

theorem tri_info_email (d : String) (env : FetchEnv) :
    _info_email d env = -1 ∨ _info_email d env = 0 ∨ _info_email d env = 1 := by
  unfold _info_email; split_ifs <;> simp

theorem tri_abnormal_url (u : String) (w : Option WhoisInfo) :
    _abnormal_url u w = -1 ∨ _abnormal_url u w = 0 ∨ _abnormal_url u w = 1 := by
  unfold _abnormal_url
  rcases w with _ | w
  · simp
  · rcases hd : w.domainName with _ | h
    · simp [hd]
    · simp only [hd]
      split_ifs <;> simp

theorem tri_website_forwarding :
    _website_forwarding = -1 ∨ _website_forwarding = 0 ∨ _website_forwarding = 1 := by
  unfold _website_forwarding; simp

theorem tri_status_bar_cust (c : String) :
    _status_bar_cust c = -1 ∨ _status_bar_cust c = 0 ∨ _status_bar_cust c = 1 := by
  unfold _status_bar_cust; split_ifs <;> simp

theorem tri_disable_right_click (c : String) :
    _disable_right_click c = -1 ∨ _disable_right_click c = 0 ∨
      _disable_right_click c = 1 := by
  unfold _disable_right_click; split_ifs <;> simp

theorem tri_using_popup_window (c : String) :
    _using_popup_window c = -1 ∨ _using_popup_window c = 0 ∨
      _using_popup_window c = 1 := by
  unfold _using_popup_window; split_ifs <;> simp

theorem tri_iframe_redirection (pg : Option Page) :
    _iframe_redirection pg = -1 ∨ _iframe_redirection pg = 0 ∨
      _iframe_redirection pg = 1 := by
  unfold _iframe_redirection
  rcases pg with _ | pg
  · simp
  · dsimp only; split_ifs <;> simp

theorem tri_age_of_domain (w : Option WhoisInfo) :
    _age_of_domain w = -1 ∨ _age_of_domain w = 0 ∨ _age_of_domain w = 1 := by
  unfold _age_of_domain
  rcases w with _ | w
  · simp
  · rcases hc : w.creationAge with _ | d
    · simp [hc]
    · simp only [hc]
      split_ifs <;> simp

theorem tri_dns_recording (b : Bool) :
    _dns_recording b = -1 ∨ _dns_recording b = 0 ∨ _dns_recording b = 1 := by
  unfold _dns_recording; split_ifs <;> simp

theorem tri_website_traffic :
    _website_traffic = -1 ∨ _website_traffic = 0 ∨ _website_traffic = 1 := by
  unfold _website_traffic; simp

theorem tri_page_rank : _page_rank = -1 ∨ _page_rank = 0 ∨ _page_rank = 1 := by
  unfold _page_rank; simp

theorem tri_google_index : _google_index = -1 ∨ _google_index = 0 ∨ _google_index = 1 := by
  unfold _google_index; simp

theorem tri_links_pointing_to_page (pg : Option Page) :
    _links_pointing_to_page pg = -1 ∨ _links_pointing_to_page pg = 0 ∨
      _links_pointing_to_page pg = 1 := by
  unfold _links_pointing_to_page
  rcases pg with _ | pg
  · simp
  · dsimp only; split_ifs <;> simp

theorem tri_stats_report (d : String) :
    _stats_report d = -1 ∨ _stats_report d = 0 ∨ _stats_report d = 1 := by
  unfold _stats_report; split_ifs <;> simp

/-- C7: for every URL string and every environment (any page content,
WHOIS, DNS and fetch outcome), `extract_all_features` returns exactly 30
values, each in {-1, 0, 1}; extraction failures (unparseable URL,
invalid port) produce the `[1] * 30` default instead of propagating. -/
theorem c7_thirty_trinary_features (url : String) (env : FetchEnv) :
    (extract_all_features url env).length = 30 ∧
    ∀ v ∈ extract_all_features url env, v = -1 ∨ v = 0 ∨ v = 1 := by
  rw [extract_all_features.eq_def]
  cases urlparseE url with
  | none =>
    refine ⟨by simp, fun v hv => ?_⟩
    exact Or.inr (Or.inr (List.eq_of_mem_replicate hv))
  | some p =>
    dsimp only
    split_ifs with hp
    · refine ⟨by simp, fun v hv => ?_⟩
      exact Or.inr (Or.inr (List.eq_of_mem_replicate hv))
    · refine ⟨rfl, fun v hv => ?_⟩
      simp only [List.mem_cons, List.not_mem_nil, or_false] at hv
      rcases hv with rfl | rfl | rfl | rfl | rfl | rfl | rfl | rfl | rfl | rfl |
        rfl | rfl | rfl | rfl | rfl | rfl | rfl | rfl | rfl | rfl |
        rfl | rfl | rfl | rfl | rfl | rfl | rfl | rfl | rfl | rfl
      · exact tri_using_ip _
      · exact tri_long_url _
      · exact tri_short_url _
      · exact tri_symbol _
      · exact tri_redirecting _
      · exact tri_prefix_suffix _
      · exact tri_sub_domains _
      · exact tri_https _
      · exact tri_domain_reg_len _
      · exact tri_favicon _ _
      · exact tri_non_std_port _
      · exact tri_https_domain_url _
      · exact tri_request_url _ _
      · exact tri_anchor_url _ _
      · exact tri_links_in_script_tags _ _
      · exact tri_server_form_handler _ _
      · exact tri_info_email _ _
      · exact tri_abnormal_url _ _
      · exact tri_website_forwarding
      · exact tri_status_bar_cust _
      · exact tri_disable_right_click _
      · exact tri_using_popup_window _
      · exact tri_iframe_redirection _
      · exact tri_age_of_domain _
      · exact tri_dns_recording _
      · exact tri_website_traffic
      · exact tri_page_rank
      · exact tri_google_index
      · exact tri_links_pointing_to_page _
      · exact tri_stats_report _

end URLDetector









